import Mathlib

/-!
Shallow embedding of the `ha-web-rtc-player` Lit component
(`HaWebRtcPlayer`), which establishes a receive-only WebRTC stream for a
camera entity.  The component's reactive fields (`_error`,
`_peerConnection`, `_remoteStream`, `_unsub`, `_sessionId`,
`_candidatesList`) become fields of `PlayerState`; each external or
platform call the component performs (data-layer calls, peer-connection
operations, DOM events) is recorded as an `ApiCall` in an emitted trace.
Asynchronous calls that can fail (`fetchWebRtcClientConfiguration`,
`webRtcOffer`, `setRemoteDescription`) are parameterised by a
`CallResult` outcome, so one run of a method is a pure function from the
pre-state and the outcomes of its external calls to the post-state, the
trace of calls it made, and how the run ended.
-/

namespace HaWebRtcPlayer

/-- The client configuration returned by `fetchWebRtcClientConfiguration`:
an opaque RTC configuration payload plus an optional data-channel label. -/
structure WebRtcClientConfiguration where
  configuration : String
  dataChannel : Option String
deriving DecidableEq, Repr

/-- Outcome of an external call that can reject/throw. -/
inductive CallResult (α : Type) where
  | ok (value : α)
  | err (message : String)
deriving DecidableEq, Repr

/-- Every externally visible action the component performs, in the order
performed.  `addLocalTrack` is included so that "no local media track is
ever attached" is expressible; the component never emits it. -/
inductive ApiCall where
  | fetchWebRtcClientConfiguration (entityid : String)
  | newRTCPeerConnection (id : Nat) (configuration : String)
  | createDataChannel (id : Nat) (label : String)
  | addTransceiver (id : Nat) (kind : String) (direction : String)
  | addIceCandidateListener (id : Nat)
  | addLocalTrack (id : Nat) (track : String)
  | createOffer (id : Nat) (offerToReceiveAudio : Bool) (offerToReceiveVideo : Bool)
  | setLocalDescription (id : Nat)
  | webRtcOffer (entityid : String) (sdp : String)
  | addTrackListener (id : Nat)
  | addWebRtcCandidate (entityid : String) (sessionId : String) (candidate : String)
  | addIceCandidateRemote (id : Nat) (candidate : String) (sdpMid : String)
  | setRemoteDescription (id : Nat) (sdp : String)
  | closePeerConnection (id : Nat)
  | stopTrack (track : String)
  | resetVideoElement
  | unsubscribe
  | fireLoadEvent
deriving DecidableEq, Repr

/-- How a run of `_startWebRtc` ended: normally, via the `return` in the
`catch` block of the offer call, or as an unhandled promise rejection
(an `await`ed call rejected outside any `try`). -/
inductive RunResult where
  | completed
  | returnedAfterError
  | unhandledRejection (message : String)
deriving DecidableEq, Repr

/-- The component's instance state: the `entityid` property and the
private fields.  The live peer connection is identified by a `Nat` id
(`nextPcId` supplies fresh ids); `remoteStream` holds the tracks of the
remote `MediaStream`; `unsub` records whether the `_unsub` subscription
handle is set; `videoEl` whether the video element has been rendered. -/
structure PlayerState where
  entityid : String
  error : Option String
  peerConnection : Option Nat
  remoteStream : Option (List String)
  unsub : Bool
  sessionId : Option String
  candidatesList : List String
  videoEl : Bool
  nextPcId : Nat
deriving DecidableEq, Repr

/-- What `render` produces: the error banner replacing the video surface
when `_error` is set, else the video element whose `loadeddata` handler
emits the given calls. -/
inductive RenderResult where
  | errorAlert (message : String)
  | videoElement (onLoadedData : List ApiCall)
deriving DecidableEq, Repr

/-- `_loadedData`: fires a single `load` UI event on the component. -/
def loadedData : List ApiCall :=
  [ApiCall.fireLoadEvent]

/-- `render`: the error banner when `_error` is set, else the video
element wired to `_loadedData`. -/
def render (st : PlayerState) : RenderResult :=
  match st.error with
  | some msg => RenderResult.errorAlert msg
  | none => RenderResult.videoElement loadedData

/-- `_cleanUp`: stop every track of the remote stream, reset the video
element, close the peer connection, unsubscribe the signaling listener,
and clear all session handles. -/
def cleanUp (st : PlayerState) : PlayerState × List ApiCall :=
  let stopCalls := (st.remoteStream.getD []).map ApiCall.stopTrack
  let videoCalls := if st.videoEl then [ApiCall.resetVideoElement] else []
  let closeCalls :=
    match st.peerConnection with
    | some id => [ApiCall.closePeerConnection id]
    | none => []
  let unsubCalls := if st.unsub then [ApiCall.unsubscribe] else []
  ({ st with
      remoteStream := none
      peerConnection := none
      unsub := false
      sessionId := none
      candidatesList := [] },
   stopCalls ++ videoCalls ++ closeCalls ++ unsubCalls)

/-- The `icecandidate` listener registered in `_startWebRtc`.  `cands` is
the local `candidates` SDP string captured by the closure;
`eventCandidate` is `event.candidate?.candidate` (missing object or
missing string modelled as `none`).  Empty or missing candidates are
ignored; otherwise the candidate is submitted immediately when a session
id is known, buffered when the subscription handle exists, or appended
to the SDP string. -/
def onIceCandidate (st : PlayerState) (cands : String)
    (eventCandidate : Option String) :
    PlayerState × String × List ApiCall :=
  match eventCandidate with
  | none => (st, cands, [])
  | some c =>
    if c = "" then (st, cands, [])
    else
      match st.sessionId with
      | some sid =>
        (st, cands, [ApiCall.addWebRtcCandidate st.entityid sid c])
      | none =>
        if st.unsub then
          ({ st with candidatesList := st.candidatesList ++ [c] }, cands, [])
        else
          (st, cands ++ "a=" ++ c ++ "\r\n", [])

/-- One step of delivering a queued `icecandidate` event while
`_startWebRtc` is between listener registration and the offer call:
threads the state and the closure's `candidates` string, accumulating
any calls the handler makes. -/
def iceStep (acc : PlayerState × String × List ApiCall) (ev : Option String) :
    PlayerState × String × List ApiCall :=
  let r := onIceCandidate acc.1 acc.2.1 ev
  (r.1, r.2.1, acc.2.2 ++ r.2.2)

/-- The SDP lines the handler appends for a list of candidate events when
no session id and no subscription handle exist: one `a=<candidate>\r\n`
line per non-empty candidate. -/
def candidateSdpLines : List (Option String) → String
  | [] => ""
  | none :: rest => candidateSdpLines rest
  | some c :: rest =>
    if c = "" then candidateSdpLines rest
    else "a=" ++ c ++ "\r\n" ++ candidateSdpLines rest

/-- `_startWebRtc`: clean up the previous attempt, clear the error, fetch
the client configuration, build the peer connection (data channel when
requested, receive-only audio and video transceivers), register the
`icecandidate` listener, create and install the local offer, send the
offer (with any locally gathered candidates appended) through
`webRtcOffer`, and finally register the `track` listener and create the
remote stream.  `fetchResult` and `offerCallResult` are the outcomes of
the two fallible external calls; `offerSdp` is the SDP produced by
`createOffer`; `iceEvents` are the `icecandidate` events delivered
during the awaits before the offer is sent.  A rejection of the
configuration fetch is not caught and propagates as an unhandled
rejection; a throw of `webRtcOffer` is caught, sets `_error` and closes
the connection. -/
def startWebRtc (st : PlayerState)
    (fetchResult : CallResult WebRtcClientConfiguration)
    (offerSdp : String) (iceEvents : List (Option String))
    (offerCallResult : CallResult Unit) :
    PlayerState × List ApiCall × RunResult :=
  let cleaned := cleanUp st
  let st2 := { cleaned.1 with error := none }
  match fetchResult with
  | CallResult.err msg =>
    (st2, cleaned.2 ++ [ApiCall.fetchWebRtcClientConfiguration st2.entityid],
     RunResult.unhandledRejection msg)
  | CallResult.ok clientConfig =>
    let pcId := st2.nextPcId
    let st3 := { st2 with
      peerConnection := some pcId
      nextPcId := pcId + 1
      candidatesList := [] }
    let setupCalls :=
      [ApiCall.fetchWebRtcClientConfiguration st2.entityid,
       ApiCall.newRTCPeerConnection pcId clientConfig.configuration] ++
      (match clientConfig.dataChannel with
       | some label => [ApiCall.createDataChannel pcId label]
       | none => []) ++
      [ApiCall.addTransceiver pcId "audio" "recvonly",
       ApiCall.addTransceiver pcId "video" "recvonly",
       ApiCall.addIceCandidateListener pcId]
    let gathered := iceEvents.foldl iceStep (st3, "", [])
    let st4 := gathered.1
    let offer_sdp := offerSdp ++ gathered.2.1
    let negotiationCalls :=
      gathered.2.2 ++
      [ApiCall.createOffer pcId true true,
       ApiCall.setLocalDescription pcId,
       ApiCall.webRtcOffer st4.entityid offer_sdp]
    match offerCallResult with
    | CallResult.err msg =>
      ({ st4 with error := some ("Failed to start WebRTC stream: " ++ msg) },
       cleaned.2 ++ setupCalls ++ negotiationCalls ++
         [ApiCall.closePeerConnection pcId],
       RunResult.returnedAfterError)
    | CallResult.ok _ =>
      ({ st4 with unsub := true, remoteStream := some [] },
       cleaned.2 ++ setupCalls ++ negotiationCalls ++
         [ApiCall.addTrackListener pcId],
       RunResult.completed)

/-- The calls `_startWebRtc` makes from the configuration fetch through
registration of the `icecandidate` listener. -/
def setupCalls (entityid : String) (pcId : Nat)
    (cfg : WebRtcClientConfiguration) : List ApiCall :=
  [ApiCall.fetchWebRtcClientConfiguration entityid,
   ApiCall.newRTCPeerConnection pcId cfg.configuration] ++
  (match cfg.dataChannel with
   | some label => [ApiCall.createDataChannel pcId label]
   | none => []) ++
  [ApiCall.addTransceiver pcId "audio" "recvonly",
   ApiCall.addTransceiver pcId "video" "recvonly",
   ApiCall.addIceCandidateListener pcId]

/-- `_handleAnswer`: install the remote description on the peer
connection (optional chaining: no call when the connection is absent);
on rejection set `_error` and close the connection. -/
def handleAnswer (st : PlayerState) (answerSdp : String)
    (setRemoteResult : CallResult Unit) : PlayerState × List ApiCall :=
  match st.peerConnection with
  | none => (st, [])
  | some id =>
    match setRemoteResult with
    | CallResult.ok _ => (st, [ApiCall.setRemoteDescription id answerSdp])
    | CallResult.err msg =>
      ({ st with error := some ("Failed to connect WebRTC stream: " ++ msg) },
       [ApiCall.setRemoteDescription id answerSdp,
        ApiCall.closePeerConnection id])

/-- The events delivered to the `webRtcOffer` callback. -/
inductive WebRtcOfferEvent where
  | session_id (sessionId : String)
  | answer (answerSdp : String)
  | candidate (candidate : String)
deriving DecidableEq, Repr

/-- `_handleOfferEvent`: a `session_id` event stores the session id,
submits every buffered candidate in order and empties the buffer; an
`answer` event is handed to `_handleAnswer`; a `candidate` event adds
the remote candidate to the peer connection when one exists. -/
def handleOfferEvent (st : PlayerState) (event : WebRtcOfferEvent)
    (setRemoteResult : CallResult Unit) : PlayerState × List ApiCall :=
  match event with
  | WebRtcOfferEvent.session_id sid =>
    ({ st with sessionId := some sid, candidatesList := [] },
     st.candidatesList.map (fun c => ApiCall.addWebRtcCandidate st.entityid sid c))
  | WebRtcOfferEvent.answer sdp => handleAnswer st sdp setRemoteResult
  | WebRtcOfferEvent.candidate c =>
    match st.peerConnection with
    | some id => (st, [ApiCall.addIceCandidateRemote id c "0"])
    | none => (st, [])

/-- Call classifiers used to count calls of a kind in a trace. -/
def isFetchCall : ApiCall → Bool
  | ApiCall.fetchWebRtcClientConfiguration _ => true
  | _ => false

def isOfferCall : ApiCall → Bool
  | ApiCall.webRtcOffer _ _ => true
  | _ => false

def isAddCandidateCall : ApiCall → Bool
  | ApiCall.addWebRtcCandidate _ _ _ => true
  | _ => false

def isCreatePcCall : ApiCall → Bool
  | ApiCall.newRTCPeerConnection _ _ => true
  | _ => false

def isCloseCall : ApiCall → Bool
  | ApiCall.closePeerConnection _ => true
  | _ => false

def isLoadEventCall : ApiCall → Bool
  | ApiCall.fireLoadEvent => true
  | _ => false

def isLocalTrackCall : ApiCall → Bool
  | ApiCall.addLocalTrack _ _ => true
  | _ => false

def isTransceiverCall : ApiCall → Bool
  | ApiCall.addTransceiver _ _ _ => true
  | _ => false

def isCreateOfferCall : ApiCall → Bool
  | ApiCall.createOffer _ _ _ => true
  | _ => false

/-- Number of calls in a trace satisfying a classifier. -/
def countCalls (p : ApiCall → Bool) (tr : List ApiCall) : Nat :=
  (tr.filter p).length

/-- A concrete fresh component state used for witnesses. -/
def initialState : PlayerState :=
  { entityid := "camera.demo"
    error := none
    peerConnection := none
    remoteStream := none
    unsub := false
    sessionId := none
    candidatesList := []
    videoEl := false
    nextPcId := 0 }

/-! ### Helper lemmas -/

/-- The state after `_cleanUp`: all session handles cleared. -/
theorem cleanUp_fst (st : PlayerState) :
    (cleanUp st).1 =
      { st with
          remoteStream := none
          peerConnection := none
          unsub := false
          sessionId := none
          candidatesList := [] } := rfl

/-- Full characterisation of `_startWebRtc` when the configuration fetch
rejects: the rejection is not caught, so the run ends as an unhandled
rejection with the error state still cleared, after only the cleanup
calls and the fetch itself. -/
theorem startWebRtc_err_eq (st : PlayerState) (msg sdp : String)
    (ice : List (Option String)) (r : CallResult Unit) :
    startWebRtc st (CallResult.err msg) sdp ice r =
      ({ st with
          remoteStream := none
          peerConnection := none
          unsub := false
          sessionId := none
          candidatesList := []
          error := none },
       (cleanUp st).2 ++ [ApiCall.fetchWebRtcClientConfiguration st.entityid],
       RunResult.unhandledRejection msg) := rfl

/-- Delivering `icecandidate` events while no session id and no
subscription handle exist leaves the state untouched, makes no calls,
and appends one SDP line per non-empty candidate. -/
theorem iceFold_clean (evs : List (Option String)) (st : PlayerState)
    (h1 : st.sessionId = none) (h2 : st.unsub = false)
    (cands : String) (calls : List ApiCall) :
    evs.foldl iceStep (st, cands, calls) =
      (st, cands ++ candidateSdpLines evs, calls) := by
  induction evs generalizing cands with
  | nil => simp [candidateSdpLines, String.append_empty]
  | cons ev rest ih =>
    cases ev with
    | none =>
      simpa [iceStep, onIceCandidate, candidateSdpLines] using ih cands
    | some c =>
      rcases eq_or_ne c "" with hc | hc
      · subst hc
        simpa [iceStep, onIceCandidate, candidateSdpLines] using ih cands
      · have hstep : iceStep (st, cands, calls) (some c) =
            (st, cands ++ "a=" ++ c ++ "\r\n", calls) := by
          simp [iceStep, onIceCandidate, h1, h2, hc]
        simp only [List.foldl_cons]
        rw [hstep, ih]
        simp [candidateSdpLines, hc, String.append_assoc]

/-- Full characterisation of `_startWebRtc` when the fetch succeeds and
the offer call throws: the error banner text is set, the connection just
created is closed, and the run ends through the catch-and-return. -/
theorem startWebRtc_ok_err_eq (st : PlayerState) (cfg : WebRtcClientConfiguration)
    (sdp : String) (ice : List (Option String)) (msg : String) :
    startWebRtc st (CallResult.ok cfg) sdp ice (CallResult.err msg) =
      ({ st with
          remoteStream := none
          peerConnection := some st.nextPcId
          unsub := false
          sessionId := none
          candidatesList := []
          error := some ("Failed to start WebRTC stream: " ++ msg)
          nextPcId := st.nextPcId + 1 },
       (cleanUp st).2 ++ setupCalls st.entityid st.nextPcId cfg ++
         [ApiCall.createOffer st.nextPcId true true,
          ApiCall.setLocalDescription st.nextPcId,
          ApiCall.webRtcOffer st.entityid (sdp ++ candidateSdpLines ice),
          ApiCall.closePeerConnection st.nextPcId],
       RunResult.returnedAfterError) := by
  simp only [startWebRtc, setupCalls]
  rw [iceFold_clean ice _ rfl rfl]
  simp [cleanUp_fst, List.append_assoc]

/-- Full characterisation of `_startWebRtc` when both fallible calls
succeed. -/
theorem startWebRtc_ok_ok_eq (st : PlayerState) (cfg : WebRtcClientConfiguration)
    (sdp : String) (ice : List (Option String)) :
    startWebRtc st (CallResult.ok cfg) sdp ice (CallResult.ok ()) =
      ({ st with
          remoteStream := some []
          peerConnection := some st.nextPcId
          unsub := true
          sessionId := none
          candidatesList := []
          error := none
          nextPcId := st.nextPcId + 1 },
       (cleanUp st).2 ++ setupCalls st.entityid st.nextPcId cfg ++
         [ApiCall.createOffer st.nextPcId true true,
          ApiCall.setLocalDescription st.nextPcId,
          ApiCall.webRtcOffer st.entityid (sdp ++ candidateSdpLines ice),
          ApiCall.addTrackListener st.nextPcId],
       RunResult.completed) := by
  simp only [startWebRtc, setupCalls]
  rw [iceFold_clean ice _ rfl rfl]
  simp [cleanUp_fst, List.append_assoc]

/-- Every call `_cleanUp` makes is a release action. -/
theorem mem_cleanUp_calls (st : PlayerState) (a : ApiCall)
    (h : a ∈ (cleanUp st).2) :
    (∃ t, a = ApiCall.stopTrack t) ∨ a = ApiCall.resetVideoElement ∨
    (∃ i, a = ApiCall.closePeerConnection i) ∨ a = ApiCall.unsubscribe := by
  cases hv : st.videoEl <;> cases hu : st.unsub <;>
    cases hp : st.peerConnection <;>
    simp [cleanUp, hv, hu, hp] at h <;> aesop

/-- `_cleanUp` makes no call of any other kind. -/
theorem cleanUp_filter_eq_nil (st : PlayerState) (p : ApiCall → Bool)
    (h1 : ∀ t, p (ApiCall.stopTrack t) = false)
    (h2 : p ApiCall.resetVideoElement = false)
    (h3 : ∀ i, p (ApiCall.closePeerConnection i) = false)
    (h4 : p ApiCall.unsubscribe = false) :
    (cleanUp st).2.filter p = [] := by
  refine List.filter_eq_nil_iff.mpr (fun a ha => ?_)
  rcases mem_cleanUp_calls st a ha with ⟨t, rfl⟩ | rfl | ⟨i, rfl⟩ | rfl <;>
    simp [h1, h2, h3, h4]

theorem cleanUp_no_fetch (st : PlayerState) :
    (cleanUp st).2.filter isFetchCall = [] :=
  cleanUp_filter_eq_nil st _ (fun _ => rfl) rfl (fun _ => rfl) rfl

theorem cleanUp_no_offer (st : PlayerState) :
    (cleanUp st).2.filter isOfferCall = [] :=
  cleanUp_filter_eq_nil st _ (fun _ => rfl) rfl (fun _ => rfl) rfl

theorem cleanUp_no_addCandidate (st : PlayerState) :
    (cleanUp st).2.filter isAddCandidateCall = [] :=
  cleanUp_filter_eq_nil st _ (fun _ => rfl) rfl (fun _ => rfl) rfl

theorem cleanUp_no_createPc (st : PlayerState) :
    (cleanUp st).2.filter isCreatePcCall = [] :=
  cleanUp_filter_eq_nil st _ (fun _ => rfl) rfl (fun _ => rfl) rfl

theorem cleanUp_no_loadEvent (st : PlayerState) :
    (cleanUp st).2.filter isLoadEventCall = [] :=
  cleanUp_filter_eq_nil st _ (fun _ => rfl) rfl (fun _ => rfl) rfl

theorem cleanUp_no_localTrack (st : PlayerState) :
    (cleanUp st).2.filter isLocalTrackCall = [] :=
  cleanUp_filter_eq_nil st _ (fun _ => rfl) rfl (fun _ => rfl) rfl

theorem cleanUp_no_transceiver (st : PlayerState) :
    (cleanUp st).2.filter isTransceiverCall = [] :=
  cleanUp_filter_eq_nil st _ (fun _ => rfl) rfl (fun _ => rfl) rfl

theorem cleanUp_no_createOffer (st : PlayerState) :
    (cleanUp st).2.filter isCreateOfferCall = [] :=
  cleanUp_filter_eq_nil st _ (fun _ => rfl) rfl (fun _ => rfl) rfl


/-- Claim C1 counterexample: at a fresh component with the configuration
fetch rejecting (message "network error"), `_startWebRtc` ends as an
unhandled rejection, the error state stays `none` so render still shows
the video surface (no error banner), and the trace contains no close of
any transport. -/
theorem fetch_failure_shows_no_banner_counterexample :
    (startWebRtc initialState (CallResult.err "network error") "" []
        (CallResult.ok ())).1.error = none ∧
    render (startWebRtc initialState (CallResult.err "network error") "" []
        (CallResult.ok ())).1 = RenderResult.videoElement loadedData ∧
    countCalls isCloseCall
      (startWebRtc initialState (CallResult.err "network error") "" []
        (CallResult.ok ())).2.1 = 0 ∧
    (startWebRtc initialState (CallResult.err "network error") "" []
        (CallResult.ok ())).2.2 = RunResult.unhandledRejection "network error" :=
  ⟨rfl, rfl, rfl, rfl⟩

/-- Claim C1 (amended): a rejection of the configuration-fetch call is not
caught by `_startWebRtc`: the run ends as an unhandled promise rejection
carrying the fetch error, the error state remains cleared (so render
still shows the video surface and no error banner appears), and the only
calls made are the previous attempt's cleanup followed by the fetch
itself — in particular no transport for this attempt exists or is
closed. -/
theorem fetch_failure_rejects_without_banner (st : PlayerState)
    (msg sdp : String) (ice : List (Option String)) (r : CallResult Unit) :
    (startWebRtc st (CallResult.err msg) sdp ice r).2.2 =
      RunResult.unhandledRejection msg ∧
    (startWebRtc st (CallResult.err msg) sdp ice r).1.error = none ∧
    render (startWebRtc st (CallResult.err msg) sdp ice r).1 =
      RenderResult.videoElement loadedData ∧
    (startWebRtc st (CallResult.err msg) sdp ice r).2.1 =
      (cleanUp st).2 ++ [ApiCall.fetchWebRtcClientConfiguration st.entityid] := by
  rw [startWebRtc_err_eq]
  exact ⟨rfl, rfl, rfl, rfl⟩

/-- Claim C2: when the signaling-offer call throws, `_startWebRtc` sets
the error state to the user-visible message (so render replaces the
video surface by the error banner) and closes the peer connection it
created; when installing the remote description rejects, `_handleAnswer`
does the same for the connection that failed. -/
theorem signaling_failure_sets_banner_and_closes :
    (∀ (st : PlayerState) (cfg : WebRtcClientConfiguration) (sdp : String)
        (ice : List (Option String)) (msg : String),
      (startWebRtc st (CallResult.ok cfg) sdp ice (CallResult.err msg)).1.error =
        some ("Failed to start WebRTC stream: " ++ msg) ∧
      render (startWebRtc st (CallResult.ok cfg) sdp ice (CallResult.err msg)).1 =
        RenderResult.errorAlert ("Failed to start WebRTC stream: " ++ msg) ∧
      ApiCall.closePeerConnection st.nextPcId ∈
        (startWebRtc st (CallResult.ok cfg) sdp ice (CallResult.err msg)).2.1) ∧
    (∀ (st : PlayerState) (id : Nat) (sdp msg : String),
      st.peerConnection = some id →
      (handleAnswer st sdp (CallResult.err msg)).1.error =
        some ("Failed to connect WebRTC stream: " ++ msg) ∧
      render (handleAnswer st sdp (CallResult.err msg)).1 =
        RenderResult.errorAlert ("Failed to connect WebRTC stream: " ++ msg) ∧
      ApiCall.closePeerConnection id ∈
        (handleAnswer st sdp (CallResult.err msg)).2) := by
  constructor
  · intro st cfg sdp ice msg
    rw [startWebRtc_ok_err_eq]
    refine ⟨rfl, rfl, ?_⟩
    simp
  · intro st id sdp msg hpc
    simp [handleAnswer, hpc, render]

/-- Claim C2 witness: the two error branches at concrete inputs. -/
theorem signaling_failure_sets_banner_and_closes_witness :
    (handleAnswer { initialState with peerConnection := some 0 } "v=0"
        (CallResult.err "boom")).1.error =
      some ("Failed to connect WebRTC stream: " ++ "boom") ∧
    ApiCall.closePeerConnection 0 ∈
      (handleAnswer { initialState with peerConnection := some 0 } "v=0"
        (CallResult.err "boom")).2 ∧
    (startWebRtc initialState
        (CallResult.ok { configuration := "cfg", dataChannel := none }) "v=0" []
        (CallResult.err "boom")).1.error =
      some ("Failed to start WebRTC stream: " ++ "boom") := by
  have h := signaling_failure_sets_banner_and_closes
  exact ⟨(h.2 _ 0 "v=0" "boom" rfl).1, (h.2 _ 0 "v=0" "boom" rfl).2.2,
    (h.1 initialState { configuration := "cfg", dataChannel := none } "v=0" [] "boom").1⟩

/-- Claim C3: from the error branches no retry step is reached: a run that
dies at the configuration fetch makes exactly one fetch call and no
offer or candidate-submission call; a run whose offer call throws makes
exactly one fetch call and one offer call and no candidate-submission
call; and the failing remote-description branch makes no fetch, offer or
candidate-submission call at all. -/
theorem no_retry_after_error :
    (∀ (st : PlayerState) (msg sdp : String) (ice : List (Option String))
        (r : CallResult Unit),
      countCalls isFetchCall (startWebRtc st (CallResult.err msg) sdp ice r).2.1 = 1 ∧
      countCalls isOfferCall (startWebRtc st (CallResult.err msg) sdp ice r).2.1 = 0 ∧
      countCalls isAddCandidateCall
        (startWebRtc st (CallResult.err msg) sdp ice r).2.1 = 0) ∧
    (∀ (st : PlayerState) (cfg : WebRtcClientConfiguration) (sdp : String)
        (ice : List (Option String)) (msg : String),
      countCalls isFetchCall
        (startWebRtc st (CallResult.ok cfg) sdp ice (CallResult.err msg)).2.1 = 1 ∧
      countCalls isOfferCall
        (startWebRtc st (CallResult.ok cfg) sdp ice (CallResult.err msg)).2.1 = 1 ∧
      countCalls isAddCandidateCall
        (startWebRtc st (CallResult.ok cfg) sdp ice (CallResult.err msg)).2.1 = 0) ∧
    (∀ (st : PlayerState) (sdp msg : String),
      countCalls isFetchCall (handleAnswer st sdp (CallResult.err msg)).2 = 0 ∧
      countCalls isOfferCall (handleAnswer st sdp (CallResult.err msg)).2 = 0 ∧
      countCalls isAddCandidateCall (handleAnswer st sdp (CallResult.err msg)).2 = 0) := by
  refine ⟨?_, ?_, ?_⟩
  · intro st msg sdp ice r
    rw [startWebRtc_err_eq]
    simp [countCalls, List.filter_append, cleanUp_no_fetch, cleanUp_no_offer,
      cleanUp_no_addCandidate, isFetchCall, isOfferCall, isAddCandidateCall]
  · intro st cfg sdp ice msg
    rw [startWebRtc_ok_err_eq]
    cases hdc : cfg.dataChannel <;>
      simp [countCalls, setupCalls, hdc, List.filter_append, cleanUp_no_fetch,
        cleanUp_no_offer, cleanUp_no_addCandidate, isFetchCall, isOfferCall,
        isAddCandidateCall]
  · intro st sdp msg
    cases hpc : st.peerConnection <;>
      simp [handleAnswer, hpc, countCalls, isFetchCall, isOfferCall,
        isAddCandidateCall]

/-- `_cleanUp` releases the previous attempt's resources whenever they
exist: the prior connection is closed, every prior track stopped, the
prior subscription unsubscribed. -/
theorem cleanUp_releases (st : PlayerState) (oldId : Nat) (tracks : List String)
    (hpc : st.peerConnection = some oldId) (hrs : st.remoteStream = some tracks)
    (hun : st.unsub = true) :
    ApiCall.closePeerConnection oldId ∈ (cleanUp st).2 ∧
    (∀ t ∈ tracks, ApiCall.stopTrack t ∈ (cleanUp st).2) ∧
    ApiCall.unsubscribe ∈ (cleanUp st).2 := by
  cases hv : st.videoEl <;> simp [cleanUp, hv, hpc, hrs, hun]

/-- Claim C4: when `_startWebRtc` runs while a previous attempt's
resources exist, the whole trace starts with the `_cleanUp` calls, which
close the prior peer connection, stop every track of the prior remote
stream and unsubscribe the prior signaling listener, and which create no
peer connection themselves — so the previous attempt's resources are
released before any new ones are created; afterwards at most one
connection is referenced: none, or the freshly created one. -/
theorem previous_attempt_released_first (st : PlayerState) (oldId : Nat)
    (tracks : List String) (fr : CallResult WebRtcClientConfiguration)
    (sdp : String) (ice : List (Option String)) (r : CallResult Unit)
    (hpc : st.peerConnection = some oldId) (hrs : st.remoteStream = some tracks)
    (hun : st.unsub = true) :
    ∃ rest, (startWebRtc st fr sdp ice r).2.1 = (cleanUp st).2 ++ rest ∧
      ApiCall.closePeerConnection oldId ∈ (cleanUp st).2 ∧
      (∀ t ∈ tracks, ApiCall.stopTrack t ∈ (cleanUp st).2) ∧
      ApiCall.unsubscribe ∈ (cleanUp st).2 ∧
      (cleanUp st).2.filter isCreatePcCall = [] ∧
      ((startWebRtc st fr sdp ice r).1.peerConnection = none ∨
        (startWebRtc st fr sdp ice r).1.peerConnection = some st.nextPcId) := by
  obtain ⟨hclose, hstop, hunsub⟩ := cleanUp_releases st oldId tracks hpc hrs hun
  cases fr with
  | err msg =>
    rw [startWebRtc_err_eq]
    exact ⟨[ApiCall.fetchWebRtcClientConfiguration st.entityid], rfl, hclose,
      hstop, hunsub, cleanUp_no_createPc st, Or.inl rfl⟩
  | ok cfg =>
    cases r with
    | err msg =>
      rw [startWebRtc_ok_err_eq]
      exact ⟨_, List.append_assoc _ _ _, hclose, hstop, hunsub,
        cleanUp_no_createPc st, Or.inr rfl⟩
    | ok u =>
      cases u
      rw [startWebRtc_ok_ok_eq]
      exact ⟨_, List.append_assoc _ _ _, hclose, hstop, hunsub,
        cleanUp_no_createPc st, Or.inr rfl⟩

/-- A concrete state with a live prior connection, one remote track and a
live subscription, used by the claim C4 witness. -/
def busyState : PlayerState :=
  { initialState with
      peerConnection := some 0
      remoteStream := some ["track0"]
      unsub := true
      nextPcId := 1 }

/-- Claim C4 witness: the release-before-create property at `busyState`. -/
theorem previous_attempt_released_first_witness :
    ∃ rest,
      (startWebRtc busyState
          (CallResult.ok { configuration := "cfg", dataChannel := none }) "v=0" []
          (CallResult.ok ())).2.1 = (cleanUp busyState).2 ++ rest ∧
      ApiCall.closePeerConnection 0 ∈ (cleanUp busyState).2 ∧
      (∀ t ∈ ["track0"], ApiCall.stopTrack t ∈ (cleanUp busyState).2) ∧
      ApiCall.unsubscribe ∈ (cleanUp busyState).2 ∧
      (cleanUp busyState).2.filter isCreatePcCall = [] ∧
      ((startWebRtc busyState
          (CallResult.ok { configuration := "cfg", dataChannel := none }) "v=0" []
          (CallResult.ok ())).1.peerConnection = none ∨
        (startWebRtc busyState
          (CallResult.ok { configuration := "cfg", dataChannel := none }) "v=0" []
          (CallResult.ok ())).1.peerConnection = some busyState.nextPcId) :=
  previous_attempt_released_first busyState 0 ["track0"] _ "v=0" [] _ rfl rfl rfl

/-- Claim C5: after `_cleanUp` every session handle is discarded: the
connection and remote media handle are `none`, the session id is
cleared, the pending-candidate list is empty and the unsubscribe handle
is cleared. -/
theorem cleanUp_clears_session_handles (st : PlayerState) :
    (cleanUp st).1.peerConnection = none ∧
    (cleanUp st).1.remoteStream = none ∧
    (cleanUp st).1.sessionId = none ∧
    (cleanUp st).1.candidatesList = [] ∧
    (cleanUp st).1.unsub = false :=
  ⟨rfl, rfl, rfl, rfl, rfl⟩

/-- Claim C6: the `loadeddata` handler emits exactly one `load` UI event,
render wires the video element's `loadeddata` to exactly that handler
whenever no error is shown, and no other operation of the component ever
emits a `load` event. -/
theorem load_event_exactly_on_loadeddata :
    countCalls isLoadEventCall loadedData = 1 ∧
    (∀ st : PlayerState, st.error = none →
      render st = RenderResult.videoElement loadedData) ∧
    (∀ (st : PlayerState) (fr : CallResult WebRtcClientConfiguration)
        (sdp : String) (ice : List (Option String)) (r : CallResult Unit),
      countCalls isLoadEventCall (startWebRtc st fr sdp ice r).2.1 = 0) ∧
    (∀ st : PlayerState, countCalls isLoadEventCall (cleanUp st).2 = 0) ∧
    (∀ (st : PlayerState) (ev : WebRtcOfferEvent) (r : CallResult Unit),
      countCalls isLoadEventCall (handleOfferEvent st ev r).2 = 0) ∧
    (∀ (st : PlayerState) (cands : String) (ev : Option String),
      countCalls isLoadEventCall (onIceCandidate st cands ev).2.2 = 0) := by
  refine ⟨rfl, ?_, ?_, ?_, ?_, ?_⟩
  · intro st h
    simp [render, h]
  · intro st fr sdp ice r
    cases fr with
    | err msg =>
      rw [startWebRtc_err_eq]
      simp [countCalls, List.filter_append, cleanUp_no_loadEvent, isLoadEventCall]
    | ok cfg =>
      cases r with
      | err msg =>
        rw [startWebRtc_ok_err_eq]
        cases hdc : cfg.dataChannel <;>
          simp [countCalls, setupCalls, hdc, List.filter_append,
            cleanUp_no_loadEvent, isLoadEventCall]
      | ok u =>
        cases u
        rw [startWebRtc_ok_ok_eq]
        cases hdc : cfg.dataChannel <;>
          simp [countCalls, setupCalls, hdc, List.filter_append,
            cleanUp_no_loadEvent, isLoadEventCall]
  · intro st
    simp [countCalls, cleanUp_no_loadEvent]
  · intro st ev r
    cases ev with
    | session_id sid =>
      simp only [handleOfferEvent, countCalls]
      rw [List.filter_eq_nil_iff.mpr]
      · rfl
      · intro a ha
        obtain ⟨c, _, rfl⟩ := List.mem_map.mp ha
        simp [isLoadEventCall]
    | answer sdp =>
      cases hpc : st.peerConnection <;> cases r <;>
        simp [handleOfferEvent, handleAnswer, hpc, countCalls, isLoadEventCall]
    | candidate c =>
      cases hpc : st.peerConnection <;>
        simp [handleOfferEvent, hpc, countCalls, isLoadEventCall]
  · intro st cands ev
    cases ev with
    | none => rfl
    | some c =>
      rcases eq_or_ne c "" with hc | hc
      · subst hc
        rfl
      · cases hsid : st.sessionId <;> cases hu : st.unsub <;>
          simp [onIceCandidate, hc, hsid, hu, countCalls, isLoadEventCall]

/-- Claim C6 witness: at the fresh state (no error) render shows the
video element wired to the `loadeddata` handler, which emits exactly one
`load` event. -/
theorem load_event_exactly_on_loadeddata_witness :
    render initialState = RenderResult.videoElement loadedData ∧
    countCalls isLoadEventCall loadedData = 1 :=
  ⟨load_event_exactly_on_loadeddata.2.1 initialState rfl,
    load_event_exactly_on_loadeddata.1⟩

/-- Claim C7: every attempt that reaches transport setup configures it
receive-only: the trace contains exactly one audio and one video
transceiver, both `recvonly`, on the new connection; the local offer is
created with `offerToReceiveAudio` and `offerToReceiveVideo` both true;
and no run of `_startWebRtc` ever attaches a local media track. -/
theorem receive_only_transport (st : PlayerState)
    (cfg : WebRtcClientConfiguration) (sdp : String)
    (ice : List (Option String)) (r : CallResult Unit)
    (fr : CallResult WebRtcClientConfiguration) :
    ((startWebRtc st (CallResult.ok cfg) sdp ice r).2.1).filter isTransceiverCall =
      [ApiCall.addTransceiver st.nextPcId "audio" "recvonly",
       ApiCall.addTransceiver st.nextPcId "video" "recvonly"] ∧
    ((startWebRtc st (CallResult.ok cfg) sdp ice r).2.1).filter isCreateOfferCall =
      [ApiCall.createOffer st.nextPcId true true] ∧
    countCalls isLocalTrackCall (startWebRtc st fr sdp ice r).2.1 = 0 := by
  refine ⟨?_, ?_, ?_⟩
  · cases r with
    | err msg =>
      rw [startWebRtc_ok_err_eq]
      cases hdc : cfg.dataChannel <;>
        simp [setupCalls, hdc, List.filter_append, cleanUp_no_transceiver,
          isTransceiverCall]
    | ok u =>
      cases u
      rw [startWebRtc_ok_ok_eq]
      cases hdc : cfg.dataChannel <;>
        simp [setupCalls, hdc, List.filter_append, cleanUp_no_transceiver,
          isTransceiverCall]
  · cases r with
    | err msg =>
      rw [startWebRtc_ok_err_eq]
      cases hdc : cfg.dataChannel <;>
        simp [setupCalls, hdc, List.filter_append, cleanUp_no_createOffer,
          isCreateOfferCall]
    | ok u =>
      cases u
      rw [startWebRtc_ok_ok_eq]
      cases hdc : cfg.dataChannel <;>
        simp [setupCalls, hdc, List.filter_append, cleanUp_no_createOffer,
          isCreateOfferCall]
  · cases fr with
    | err msg =>
      rw [startWebRtc_err_eq]
      simp [countCalls, List.filter_append, cleanUp_no_localTrack, isLocalTrackCall]
    | ok cfg2 =>
      cases r with
      | err msg =>
        rw [startWebRtc_ok_err_eq]
        cases hdc : cfg2.dataChannel <;>
          simp [countCalls, setupCalls, hdc, List.filter_append,
            cleanUp_no_localTrack, isLocalTrackCall]
      | ok u =>
        cases u
        rw [startWebRtc_ok_ok_eq]
        cases hdc : cfg2.dataChannel <;>
          simp [countCalls, setupCalls, hdc, List.filter_append,
            cleanUp_no_localTrack, isLocalTrackCall]

/-- Claim C8: a successful attempt performs its steps in order: cleanup of
the previous attempt, then the configuration fetch with the entity id,
then creation of the peer connection from the fetched configuration
(with the optional data channel when requested, followed by the
receive-only transceivers and the `icecandidate` listener), then
creation and installation of the local offer, then the signaling-offer
call carrying the offer SDP with any locally gathered candidates
appended, and only then registration of the `track` handler. -/
theorem startWebRtc_call_order (st : PlayerState)
    (cfg : WebRtcClientConfiguration) (sdp : String)
    (ice : List (Option String)) :
    (startWebRtc st (CallResult.ok cfg) sdp ice (CallResult.ok ())).2.1 =
      (cleanUp st).2 ++
        ([ApiCall.fetchWebRtcClientConfiguration st.entityid,
          ApiCall.newRTCPeerConnection st.nextPcId cfg.configuration] ++
         (match cfg.dataChannel with
          | some label => [ApiCall.createDataChannel st.nextPcId label]
          | none => []) ++
         [ApiCall.addTransceiver st.nextPcId "audio" "recvonly",
          ApiCall.addTransceiver st.nextPcId "video" "recvonly",
          ApiCall.addIceCandidateListener st.nextPcId]) ++
        [ApiCall.createOffer st.nextPcId true true,
         ApiCall.setLocalDescription st.nextPcId,
         ApiCall.webRtcOffer st.entityid (sdp ++ candidateSdpLines ice),
         ApiCall.addTrackListener st.nextPcId] := by
  rw [startWebRtc_ok_ok_eq]
  simp [setupCalls]

/-- Claim C9: a local ICE candidate event is dispatched in exactly one of
four mutually exclusive ways determined by the current state: a missing
or empty candidate string is ignored; otherwise with a known session id
it is submitted immediately; otherwise with a live subscription handle
it is appended to the pending-candidate list; otherwise it is appended
to the offer SDP string as a line `a=<candidate>\r\n`. -/
theorem ice_candidate_dispatch (st : PlayerState) (cands : String) :
    onIceCandidate st cands none = (st, cands, []) ∧
    onIceCandidate st cands (some "") = (st, cands, []) ∧
    (∀ (c sid : String), c ≠ "" → st.sessionId = some sid →
      onIceCandidate st cands (some c) =
        (st, cands, [ApiCall.addWebRtcCandidate st.entityid sid c])) ∧
    (∀ c : String, c ≠ "" → st.sessionId = none → st.unsub = true →
      onIceCandidate st cands (some c) =
        ({ st with candidatesList := st.candidatesList ++ [c] }, cands, [])) ∧
    (∀ c : String, c ≠ "" → st.sessionId = none → st.unsub = false →
      onIceCandidate st cands (some c) =
        (st, cands ++ "a=" ++ c ++ "\r\n", [])) := by
  refine ⟨rfl, rfl, ?_, ?_, ?_⟩
  · intro c sid hc hsid
    simp [onIceCandidate, hc, hsid]
  · intro c hc hsid hu
    simp [onIceCandidate, hc, hsid, hu]
  · intro c hc hsid hu
    simp [onIceCandidate, hc, hsid, hu]

/-- Claim C9 witness: the three non-trivial dispatch branches at concrete
states and the candidate string "candidate:1". -/
theorem ice_candidate_dispatch_witness :
    onIceCandidate initialState "" (some "candidate:1") =
      (initialState, "" ++ "a=" ++ "candidate:1" ++ "\r\n", []) ∧
    onIceCandidate { initialState with unsub := true } "" (some "candidate:1") =
      ({ initialState with unsub := true, candidatesList := ["candidate:1"] },
       "", []) ∧
    onIceCandidate { initialState with sessionId := some "s1" } ""
        (some "candidate:1") =
      ({ initialState with sessionId := some "s1" }, "",
       [ApiCall.addWebRtcCandidate "camera.demo" "s1" "candidate:1"]) := by
  have h1 := ice_candidate_dispatch initialState ""
  have h2 := ice_candidate_dispatch { initialState with unsub := true } ""
  have h3 := ice_candidate_dispatch { initialState with sessionId := some "s1" } ""
  exact ⟨h1.2.2.2.2 "candidate:1" (by decide) rfl rfl,
    h2.2.2.2.1 "candidate:1" (by decide) rfl rfl,
    h3.2.2.1 "candidate:1" "s1" (by decide) rfl⟩

/-- Claim C10: handling a `session_id` signaling event stores the session
id, submits every buffered candidate via the candidate-submission call
with that session id in the buffered order (one call per buffered
candidate, none dropped or repeated), and leaves the pending-candidate
list empty. -/
theorem session_id_flushes_pending (st : PlayerState) (sid : String)
    (r : CallResult Unit) :
    (handleOfferEvent st (WebRtcOfferEvent.session_id sid) r).1.sessionId =
      some sid ∧
    (handleOfferEvent st (WebRtcOfferEvent.session_id sid) r).1.candidatesList =
      [] ∧
    (handleOfferEvent st (WebRtcOfferEvent.session_id sid) r).2 =
      st.candidatesList.map
        (fun c => ApiCall.addWebRtcCandidate st.entityid sid c) ∧
    (handleOfferEvent st (WebRtcOfferEvent.session_id sid) r).2.length =
      st.candidatesList.length := by
  refine ⟨rfl, rfl, rfl, ?_⟩
  simp [handleOfferEvent]

end HaWebRtcPlayer
